import Mathlib

/-
Shallow embedding of the platformTestTool workload engine.

Source files embedded:
* `main.py` — `run_user_soak` (planner, queue fill, worker loops) and its
  inner `process_query` (duration coalescing, retry, return-code mapping,
  metric construction);
* `src/core/sqlalchemy_executor.py` — the relational Execution Adapter;
* `src/core/performance_metrics.py` — `record_query_metrics` normalization.

Python dict entries are modelled by `PyField` (missing / stored `None` /
stored value); machine floats are modelled by `ℚ` (the embedded logic only
compares, subtracts and tests truthiness, which agree with IEEE semantics on
the values involved).
-/

/-- A Python dict entry: the key may be missing, present holding `None`,
or present holding a value. -/
inductive PyField (α : Type) where
  | missing : PyField α
  | null : PyField α
  | val : α → PyField α
deriving DecidableEq, Repr

/-- Python `d.get(k)`: `None` both when the key is missing and when it
stores `None`. -/
def PyField.get {α : Type} : PyField α → Option α
  | .missing => none
  | .null => none
  | .val a => some a

/-- Python `d.get(k, dflt)`: the default applies only when the key is
missing; a stored `None` still comes back as `None`. -/
def PyField.getD {α : Type} (dflt : α) : PyField α → Option α
  | .missing => some dflt
  | .null => none
  | .val a => some a

/-- One field of a Python `dict.update` merge: entries present in the
update (even holding `None`) overwrite, missing ones keep the original. -/
def PyField.updateWith {α : Type} (orig upd : PyField α) : PyField α :=
  match upd with
  | .missing => orig
  | u => u

/-- Python `s.lower()`, embedded character-wise (the compared texts are
ASCII, where `Char.toLower` agrees with `str.lower`). -/
def pyLower (s : String) : String := String.mk (s.data.map Char.toLower)

/-- Python truthiness of an optional string (`if result.get('error')`). -/
def pyTruthyStr : Option String → Bool
  | some s => s != ""
  | none => false

/-- Python truthiness of an optional number (`if retry_duration:`). -/
def pyTruthyRat : Option ℚ → Bool
  | some q => q != 0
  | none => false

/-- The slice of a backend result dict that `process_query` (main.py)
reads and merges: timing, status, row counts and resource-cost fields. -/
structure ExecResult where
  success : PyField Bool := .missing
  error : PyField String := .missing
  total_duration : PyField ℚ := .missing
  duration : PyField ℚ := .missing
  start_time : PyField ℚ := .missing
  end_time : PyField ℚ := .missing
  rows_affected : PyField ℤ := .missing
  rows_processed : PyField ℤ := .missing
  memory_usage : PyField ℚ := .missing
  cpu_time : PyField ℚ := .missing
  error_code : PyField String := .missing
deriving DecidableEq, Repr

/-- Python `result.update(retry)` restricted to the embedded fields. -/
def ExecResult.update (r u : ExecResult) : ExecResult where
  success := r.success.updateWith u.success
  error := r.error.updateWith u.error
  total_duration := r.total_duration.updateWith u.total_duration
  duration := r.duration.updateWith u.duration
  start_time := r.start_time.updateWith u.start_time
  end_time := r.end_time.updateWith u.end_time
  rows_affected := r.rows_affected.updateWith u.rows_affected
  rows_processed := r.rows_processed.updateWith u.rows_processed
  memory_usage := r.memory_usage.updateWith u.memory_usage
  cpu_time := r.cpu_time.updateWith u.cpu_time
  error_code := r.error_code.updateWith u.error_code

/-- main.py 540–551: compose the duration from available fields —
`total_duration`, else `duration`, else `end_time - start_time` when both
timestamps are non-`None`, else `0.0`.  (`float()` on the numeric fields
cannot fail, so the `except` fallback to `0.0` is unreachable here.) -/
def compose_total_duration (result : ExecResult) : ℚ :=
  match result.total_duration.get with
  | some td => td
  | none =>
    match result.duration.get with
    | some d => d
    | none =>
      match result.start_time.get, result.end_time.get with
      | some s, some e => e - s
      | _, _ => 0

/-- The coalescing order exactly as claim C10 words it: `total_duration`
when present; otherwise `duration` when present; otherwise
`end_time - start_time` when both timestamps are present; otherwise `0.0`. -/
def durationCoalesceSpec (td d st et : Option ℚ) : ℚ :=
  match td with
  | some x => x
  | none =>
    match d with
    | some y => y
    | none =>
      match st, et with
      | some s, some e => e - s
      | _, _ => 0

/-- main.py 580–587: derive `return_code` from the result's `success`
flag and `error` text.  The result is `none` when the Python code would
raise an uncaught `AttributeError` (`None.lower()`): `success` absent and
the `error` key present holding `None`. -/
def return_code_val (result : ExecResult) : Option ℤ :=
  match result.success.get with
  | some true => some 0
  | some false => some 1
  | none =>
    match result.error.getD "" with
    | none => none
    | some s =>
      if pyLower s = "killed" then some 9
      else some (if pyTruthyStr result.error.get then 1 else 0)

/-- Return-code mapping as forced by the code (amended claim C1):
`success=True → 0`; `success=False → 1` regardless of the error text;
with `success` absent: error text equal to `"killed"` case-insensitively
→ 9, any other non-empty error text → 1, otherwise (error missing or
empty) → 0; an `error` key stored as `None` raises. -/
def returnCodeSpec (success : Option Bool) (error : PyField String) : Option ℤ :=
  match success with
  | some true => some 0
  | some false => some 1
  | none =>
    match error with
    | .null => none
    | .missing => some 0
    | .val s =>
      if pyLower s = "killed" then some 9
      else if s = "" then some 0 else some 1

/-- C10: for every emitted MetricRecord, the recorded duration is
coalesced from the ExecutionResult in this fixed order: `total_duration`
when present; otherwise `duration` when present; otherwise
`end_time - start_time` when both timestamps are present; otherwise 0.0. -/
theorem duration_coalescing_confirmed (r : ExecResult) :
    compose_total_duration r =
      durationCoalesceSpec r.total_duration.get r.duration.get
        r.start_time.get r.end_time.get := by
  unfold compose_total_duration durationCoalesceSpec
  cases r.total_duration.get <;> cases r.duration.get <;>
    cases r.start_time.get <;> cases r.end_time.get <;> rfl

/-- C1 counterexample: the claim says `success=False` with error text
`"killed"` (case-insensitively) maps to return code 9, but the code's
`elif` chain assigns 1 to every `success=False` result before the
`killed` test is reached. -/
theorem return_code_killed_counterexample :
    return_code_val { success := .val false, error := .val "killed" } = some 1 ∧
      (1 : ℤ) ≠ 9 := by
  exact ⟨rfl, by decide⟩

/-- C1 (amended): `success=True → 0`; `success=False → 1` regardless of
the error text; `success` absent and error text equal to `"killed"`
case-insensitively → 9; `success` absent and any other non-empty error
text → 1; otherwise → 0 (and with `success` absent, an `error` key
stored as `None` raises instead of yielding a code). -/
theorem return_code_mapping_amended (r : ExecResult) :
    return_code_val r = returnCodeSpec r.success.get r.error := by
  have hstr : ∀ a : String,
      (if pyLower a = "killed" then (some 9 : Option ℤ)
        else some (if pyTruthyStr (some a) then 1 else 0)) =
      (if pyLower a = "killed" then some 9
        else if a = "" then some 0 else some 1) := by
    intro a
    by_cases hk : pyLower a = "killed"
    · simp [hk]
    · by_cases he : a = ""
      · subst he; simp [pyTruthyStr]
      · simp [hk, he, pyTruthyStr, bne_iff_ne]
  rcases r with ⟨s, e, td, d, st, et, ra, rp, mu, ct, ec⟩
  cases s <;> cases e <;>
    simp only [return_code_val, returnCodeSpec, PyField.get, PyField.getD] <;>
    first
      | (rw [if_neg (by decide)]; rfl)
      | exact hstr _
      | (rename_i b a; cases b <;> rfl)

/-- One invocation of the Execution Adapter during retry: `none` models
an exception raised by `execute_batch` (swallowed by the retry loop),
otherwise the returned result list. -/
abbrev AdapterCall : Type := Option (List ExecResult)

/-- main.py 561–566: the duration a retry attempt reports —
`retry.get('total_duration') or retry.get('duration')` (Python `or`
keeps the first operand only when truthy), falling back to
`end_time - start_time` when that is `None` and both timestamps are
truthy. -/
def retry_duration_of (retry : ExecResult) : Option ℚ :=
  let rd :=
    if pyTruthyRat retry.total_duration.get then retry.total_duration.get
    else retry.duration.get
  match rd with
  | some x => some x
  | none =>
    if pyTruthyRat retry.start_time.get && pyTruthyRat retry.end_time.get then
      some (retry.end_time.get.getD 0 - retry.start_time.get.getD 0)
    else none

/-- Whether one adapter invocation makes the retry loop stop: it must
return a non-empty list whose first result has a truthy duration
(`if retry_duration:`). -/
def attemptYields : AdapterCall → Bool
  | Option.none => false
  | Option.some [] => false
  | Option.some (r :: _) => pyTruthyRat (retry_duration_of r)

/-- main.py 556–573: the `for attempt in range(retry_count)` body.
`calls` holds one adapter outcome per invocation; returns the final
`total_duration`, the (possibly merged) result, and the number of
adapter invocations the loop performed. -/
def retry_attempts (result : ExecResult) (td : ℚ) :
    List AdapterCall → ℚ × ExecResult × ℕ
  | [] => (td, result, 0)
  | Option.none :: rest =>
    let out := retry_attempts result td rest
    (out.1, out.2.1, out.2.2 + 1)
  | Option.some [] :: rest =>
    let out := retry_attempts result td rest
    (out.1, out.2.1, out.2.2 + 1)
  | Option.some (retry :: _) :: rest =>
    let rd := retry_duration_of retry
    if pyTruthyRat rd then (rd.getD 0, result.update retry, 1)
    else
      let out := retry_attempts result td rest
      (out.1, out.2.1, out.2.2 + 1)

/-- main.py 553–573: the retry phase of `process_query` for one result.
`db_nonrel` embeds `db_type in ['mongodb', 'redis']`.  The third
component counts adapter invocations made by the retry loop. -/
def retry_phase (retry_enabled : Bool) (retry_count : ℕ)
    (retry_skip_nonrelational : Bool) (db_nonrel : Bool)
    (result : ExecResult) (td : ℚ)
    (adapter : ℕ → AdapterCall) : ℚ × ExecResult × ℕ :=
  if retry_enabled && (td == 0) then
    if !(retry_skip_nonrelational && db_nonrel) then
      retry_attempts result td ((List.range retry_count).map adapter)
    else (td, result, 0)
  else (td, result, 0)

/-- One relational item processed by `process_query`: invocation 0 is
the initial `execute_batch` producing `initial`; invocations 1, 2, … are
the retry loop's.  Returns the final composed duration, the final
result, and the total number of adapter invocations. -/
def process_one_relational (retry_enabled : Bool) (retry_count : ℕ)
    (retry_skip_nonrelational : Bool)
    (initial : ExecResult) (adapter : ℕ → AdapterCall) : ℚ × ExecResult × ℕ :=
  let td := compose_total_duration initial
  let out := retry_phase retry_enabled retry_count retry_skip_nonrelational
      false initial td (fun i => adapter (i + 1))
  (out.1, out.2.1, out.2.2 + 1)

/-- The C2 scenario: the initial execution and the first retry report
duration 0, the second retry reports 1.2. -/
def c2_zero_result : ExecResult := { success := .val true, duration := .val 0 }

/-- The C2 scenario result carrying the non-zero duration 1.2
(`mkRat 6 5`, the exact rational 1.2). -/
def c2_good_result : ExecResult :=
  { success := .val true, duration := .val (mkRat 6 5) }

/-- The C2 scenario adapter: invocation 1 returns duration 0,
invocation 2 returns duration 1.2, any further invocation would raise. -/
def c2_adapter : ℕ → AdapterCall
  | 1 => Option.some [c2_zero_result]
  | 2 => Option.some [c2_good_result]
  | _ => Option.none

/-- The retry loop performs at most as many adapter invocations as it
has attempts. -/
lemma retry_attempts_count_le (calls : List AdapterCall) (result : ExecResult)
    (td : ℚ) : (retry_attempts result td calls).2.2 ≤ calls.length := by
  induction calls with
  | nil => simp [retry_attempts]
  | cons c rest ih =>
    cases c with
    | none => simp [retry_attempts]; omega
    | some l =>
      cases l with
      | nil => simp [retry_attempts]; omega
      | cons r l' =>
        by_cases h : pyTruthyRat (retry_duration_of r)
        · simp [retry_attempts, h]
        · simp [retry_attempts, h]; omega

/-- If no attempt yields a truthy duration, the loop runs through every
attempt and keeps the original result and duration unchanged. -/
lemma retry_attempts_falsy (calls : List AdapterCall) (result : ExecResult)
    (td : ℚ) (h : ∀ c ∈ calls, attemptYields c = false) :
    retry_attempts result td calls = (td, result, calls.length) := by
  induction calls with
  | nil => simp [retry_attempts]
  | cons c rest ih =>
    have hc := h c (List.mem_cons_self _ _)
    have hrest : ∀ x ∈ rest, attemptYields x = false :=
      fun x hx => h x (List.mem_cons_of_mem _ hx)
    cases c with
    | none => simp [retry_attempts, ih hrest]
    | some l =>
      cases l with
      | nil => simp [retry_attempts, ih hrest]
      | cons r l' =>
        have hr : pyTruthyRat (retry_duration_of r) = false := by
          simpa [attemptYields] using hc
        simp [retry_attempts, hr, ih hrest]

/-- C2: with retry enabled (`retries=3`, `skip_nonrelational=true`) on a
relational backend, a zero/absent duration re-invokes the adapter up to
the retry count; the first retry attempt with a non-zero duration wins,
its fields are merged into the original result and retrying stops; for
adapter durations 0, then 0, then 1.2 the final duration is 1.2 with
exactly 3 adapter invocations; if every attempt stays zero/absent the
original pre-retry result is kept unchanged. -/
theorem retry_policy_confirmed :
    (process_one_relational true 3 true c2_zero_result c2_adapter =
        (mkRat 6 5, c2_zero_result.update c2_good_result, 3) ∧
      (c2_zero_result.update c2_good_result).duration = .val (mkRat 6 5)) ∧
    (∀ (result : ExecResult) (td : ℚ) (r : ExecResult) (l : List ExecResult)
        (rest : List AdapterCall), attemptYields (Option.some (r :: l)) = true →
      retry_attempts result td (Option.some (r :: l) :: rest) =
        ((retry_duration_of r).getD 0, result.update r, 1)) ∧
    (∀ (calls : List AdapterCall) (result : ExecResult) (td : ℚ),
      (∀ c ∈ calls, attemptYields c = false) →
      retry_attempts result td calls = (td, result, calls.length)) ∧
    (∀ (e s nr : Bool) (n : ℕ) (result : ExecResult) (td : ℚ)
        (adapter : ℕ → AdapterCall),
      (retry_phase e n s nr result td adapter).2.2 ≤ n) := by
  refine ⟨⟨by decide, by decide⟩, ?_, ?_, ?_⟩
  · intro result td r l rest hy
    have hr : pyTruthyRat (retry_duration_of r) = true := by
      simpa [attemptYields] using hy
    simp [retry_attempts, hr]
  · exact fun calls result td h => retry_attempts_falsy calls result td h
  · intro e s nr n result td adapter
    unfold retry_phase
    split
    · split
      · have h := retry_attempts_count_le ((List.range n).map adapter) result td
        simpa using h
      · simp
    · simp

/-- C2 witness: a single all-zero retry attempt leaves the original
result and duration unchanged. -/
theorem retry_policy_confirmed_witness :
    retry_attempts c2_zero_result 0 [Option.some [c2_zero_result]] =
      (0, c2_zero_result, 1) :=
  retry_policy_confirmed.2.2.1 [Option.some [c2_zero_result]] c2_zero_result 0
    (by decide)

/-- A worker assignment: the category key `(type, operation?, complexity)`
appended by the planner (main.py 186–197). -/
inductive Assignment where
  | read (complexity : String)
  | write (operation complexity : String)
deriving DecidableEq, Repr

/-- Python `int()` applied to a float: truncation toward zero. -/
def pyInt (q : ℚ) : ℤ := if 0 ≤ q then ⌊q⌋ else ⌈q⌉

/-- main.py 176–200: the Thread/Operation Planner.  `read_share` is
`thread_ratios.get('read', 0.5)`; the three association lists are the
read-complexity, write-operation and write-complexity maps.  Python's
`for _ in range(n)` runs `max n 0` times, hence `Int.toNat`. -/
def thread_assignments (total_threads : ℕ) (read_share : ℚ)
    (read_complexity write_ops write_complexity : List (String × ℚ)) :
    List Assignment :=
  let read_threads : ℤ := pyInt ((total_threads : ℚ) * read_share)
  let write_threads : ℤ := (total_threads : ℤ) - read_threads
  let reads := read_complexity.flatMap fun p =>
    List.replicate (pyInt ((read_threads : ℚ) * p.2)).toNat
      (Assignment.read p.1)
  let writes := write_ops.flatMap fun p =>
    write_complexity.flatMap fun q =>
      List.replicate (pyInt ((write_threads : ℚ) * p.2 * q.2)).toNat
        (Assignment.write p.1 q.1)
  let ta := reads ++ writes
  if ta.isEmpty then List.replicate total_threads (Assignment.read "simple")
  else ta

/-- The Planner exactly as claim C6 words it: `floor(total * read_share)`
read workers, the rest write workers, `floor(read_workers * ratio)`
assignments per read complexity, `floor(write_workers * op_ratio *
complexity_ratio)` per write operation × complexity, no remainder
redistribution, and the `{read, simple}` fallback on an empty list. -/
def plannerSpec (total_threads : ℕ) (read_share : ℚ)
    (read_complexity write_ops write_complexity : List (String × ℚ)) :
    List Assignment :=
  let read_workers : ℤ := ⌊(total_threads : ℚ) * read_share⌋
  let write_workers : ℤ := (total_threads : ℤ) - read_workers
  let reads := read_complexity.flatMap fun p =>
    List.replicate (⌊(read_workers : ℚ) * p.2⌋).toNat (Assignment.read p.1)
  let writes := write_ops.flatMap fun p =>
    write_complexity.flatMap fun q =>
      List.replicate (⌊(write_workers : ℚ) * p.2 * q.2⌋).toNat
        (Assignment.write p.1 q.1)
  let ta := reads ++ writes
  if ta.isEmpty then List.replicate total_threads (Assignment.read "simple")
  else ta

/-- Truncation toward zero and flooring agree after clamping at zero, so
negative allocation counts never differ observably. -/
lemma pyInt_toNat (q : ℚ) : (pyInt q).toNat = ⌊q⌋.toNat := by
  unfold pyInt
  split
  · rfl
  · rename_i h
    push_neg at h
    have hc : ⌈q⌉ ≤ 0 := Int.ceil_le.mpr (by exact_mod_cast h.le)
    have hf : ⌊q⌋ ≤ 0 := Int.floor_nonpos h.le
    omega

/-- C6: the Planner allocates `floor(total * read_share)` read workers and
the rest as write workers, then `floor(read_workers * ratio)` assignments
per read complexity and `floor(write_workers * op_ratio *
complexity_ratio)` per write operation × complexity, with no remainder
redistribution; and whenever the resulting list is empty (for instance all
ratio maps empty or summing to zero), every worker is assigned
`{read, simple}`. -/
theorem planner_allocation_confirmed :
    (∀ (total : ℕ) (rs : ℚ) (rc wo wc : List (String × ℚ)), 0 ≤ rs →
      thread_assignments total rs rc wo wc = plannerSpec total rs rc wo wc) ∧
    (∀ (total : ℕ) (rs : ℚ),
      thread_assignments total rs [("simple", 0)] [("insert", 0)]
          [("simple", 1)] =
        List.replicate total (Assignment.read "simple")) := by
  constructor
  · intro total rs rc wo wc h
    have h0 : pyInt ((total : ℚ) * rs) = ⌊(total : ℚ) * rs⌋ :=
      if_pos (mul_nonneg (Nat.cast_nonneg total) h)
    simp only [thread_assignments, plannerSpec, h0, pyInt_toNat]
  · intro total rs
    simp only [thread_assignments]
    norm_num [List.flatMap, pyInt]

/-- C6 witness: 5 workers at read share 1/2 with a single full-weight
read complexity. -/
theorem planner_allocation_confirmed_witness :
    0 ≤ mkRat 1 2 ∧
      thread_assignments 5 (mkRat 1 2) [("simple", 1)] [] [] =
        plannerSpec 5 (mkRat 1 2) [("simple", 1)] [] [] :=
  ⟨by decide,
    planner_allocation_confirmed.1 5 (mkRat 1 2) [("simple", 1)] [] []
      (by decide)⟩

/-- A work item's metadata slice read by the engine (operation payload
plus reporting metadata). -/
structure WorkItem where
  query : String := ""
  file_name : String := ""
  operation : String := ""
  complexity : String := ""
  action : Option String := none
  collection : Option String := none
deriving DecidableEq, Repr

/-- What the relational backend does under
`with self.conn.connect() as connection: res = connection.execute(sql)`:
either a driver-reported row count (possibly unavailable) or a raised
exception carrying its message and type name. -/
inductive SqlOutcome where
  | ok (rowcount : Option ℤ)
  | exc (msg ty : String)
deriving DecidableEq, Repr

/-- src/core/sqlalchemy_executor.py 13–63: `SQLAlchemyExecutor.execute`.
`t0` and `t1` are the two `time.time()` readings.  Totality of this Lean
function is the containment property: every backend outcome, including a
raised exception, maps to a returned result dict. -/
def sqlalchemy_execute (q : WorkItem) (t0 t1 : ℚ) (backend : SqlOutcome) :
    ExecResult :=
  match backend with
  | .ok rowcount =>
    { success := .val true
      error := .null
      total_duration := .missing
      duration := .val (t1 - t0)
      start_time := .val t0
      end_time := .val t1
      rows_affected := .val (rowcount.getD 0)
      rows_processed := .val (rowcount.getD 0)
      memory_usage := .val 0
      cpu_time := .val 0
      error_code := .null }
  | .exc msg ty =>
    { success := .val false
      error := .val msg
      total_duration := .missing
      duration := .val (if t0 ≠ 0 then t1 - t0 else 0)
      start_time := .val t0
      end_time := .val t1
      rows_affected := .val 0
      rows_processed := .val 0
      memory_usage := .val 0
      cpu_time := .val 0
      error_code := .val ty }

/-- src/core/sqlalchemy_executor.py 65–69: `execute_batch` maps
`execute` over the items. -/
def sqlalchemy_execute_batch (ts : WorkItem → ℚ × ℚ)
    (backend : WorkItem → SqlOutcome) (queries : List WorkItem) :
    List ExecResult :=
  queries.map fun q => sqlalchemy_execute q (ts q).1 (ts q).2 (backend q)

/-- What a document-store or key-value backend call does inside the
`try` of main.py 448–524: either completes with an observed row count,
or raises (any exception, including the unsupported-action and missing
collection/action `ValueError`s). -/
inductive NonRelOutcome where
  | ok (rows : ℤ)
  | exc (msg : String)
deriving DecidableEq, Repr

/-- main.py 446–526: the non-relational execution branch of
`process_query`.  `db_mongodb` distinguishes the mongodb result shape
(full fields) from the redis one (no error/resource fields); the
`except` arm (main.py 525–526) yields a single failed result. -/
def nonrel_execute (db_mongodb : Bool) (t0 t1 : ℚ)
    (outcome : NonRelOutcome) : List ExecResult :=
  match outcome with
  | .exc msg => [{ success := .val false, error := .val msg }]
  | .ok rows =>
    if db_mongodb then
      [{ success := .val true
         error := .null
         start_time := .val t0
         end_time := .val t1
         duration := .val (t1 - t0)
         rows_affected := .val rows
         rows_processed := .val rows
         error_code := .null
         memory_usage := .val 0
         cpu_time := .val 0 }]
    else
      [{ success := .val true
         start_time := .val t0
         end_time := .val t1
         duration := .val (t1 - t0)
         rows_affected := .val 0
         rows_processed := .val 0 }]

/-- C7: for every WorkItem and backend family the Execution Adapter
never lets a backend exception escape: `sqlalchemy_execute` and
`nonrel_execute` are total functions of the backend outcome, and a
raised exception is always captured as a returned result with
`success=False` and the error text set to the exception's message. -/
theorem adapter_exception_containment :
    (∀ (q : WorkItem) (t0 t1 : ℚ) (msg ty : String),
      (sqlalchemy_execute q t0 t1 (.exc msg ty)).success = .val false ∧
        (sqlalchemy_execute q t0 t1 (.exc msg ty)).error = .val msg) ∧
    (∀ (m : Bool) (t0 t1 : ℚ) (msg : String),
      nonrel_execute m t0 t1 (.exc msg) =
        [{ success := .val false, error := .val msg }]) :=
  ⟨fun _ _ _ _ _ => ⟨rfl, rfl⟩, fun _ _ _ _ => rfl⟩

/-- A Python value as stored in a metric dict. -/
inductive PyVal where
  | none : PyVal
  | str : String → PyVal
  | bool : Bool → PyVal
  | rat : ℚ → PyVal
  | int : ℤ → PyVal
deriving DecidableEq, Repr

/-- Python truthiness of a dict value (`if not norm.get('job_id')`). -/
def PyVal.truthy : PyVal → Bool
  | .none => false
  | .str s => s != ""
  | .bool b => b
  | .rat q => q != 0
  | .int n => n != 0

/-- Lift `d.get(k)` results into values (`None` for a missing key). -/
def PyVal.ofRat : Option ℚ → PyVal
  | some q => .rat q
  | _ => .none

/-- Lift an optional integer into a value. -/
def PyVal.ofInt : Option ℤ → PyVal
  | some n => .int n
  | _ => .none

/-- Lift an optional boolean into a value. -/
def PyVal.ofBool : Option Bool → PyVal
  | some b => .bool b
  | _ => .none

/-- Lift an optional string into a value. -/
def PyVal.ofStr : Option String → PyVal
  | some s => .str s
  | _ => .none

/-- The string held by a value; the engine only applies this where the
stored value is a string. -/
def PyVal.asStr : PyVal → String
  | .str s => s
  | _ => ""

/-- A Python dict with string keys, observed through lookup. -/
abbrev Dict := List (String × PyVal)

/-- First-match lookup. -/
def Dict.get? (d : Dict) (k : String) : Option PyVal :=
  (d.find? fun p => p.1 == k).map Prod.snd

/-- Assignment, modelled by prepending — observationally identical to
Python dict assignment through `Dict.get?`. -/
def Dict.set (d : Dict) (k : String) (v : PyVal) : Dict := (k, v) :: d

/-- Python `d.get(k, dflt)`: stored `None` is still returned; the
default applies only to a missing key. -/
def Dict.getV (d : Dict) (k : String) (dflt : PyVal) : PyVal :=
  (d.get? k).getD dflt

/-- main.py 588–610: the `metric_full` dict built for one result, with
`file_name` / `operation` / `complexity` taken from the work item
(main.py 536–538) and `total_duration` / `return_code` computed
beforehand. -/
def metric_full (job_id test_case_id metric_id user_id thread_name_val : String)
    (query : WorkItem) (result : ExecResult) (total_duration : ℚ)
    (return_code : ℤ) : Dict :=
  [("job_id", .str job_id),
   ("test_case_id", .str test_case_id),
   ("query_id", .str metric_id),
   ("start_time", PyVal.ofRat result.start_time.get),
   ("end_time", PyVal.ofRat result.end_time.get),
   ("duration", .rat total_duration),
   ("total_duration", .rat total_duration),
   ("success", PyVal.ofBool result.success.get),
   ("error", PyVal.ofStr result.error.get),
   ("rows_affected", PyVal.ofInt (result.rows_affected.getD 0)),
   ("memory_usage", PyVal.ofRat (result.memory_usage.getD 0)),
   ("cpu_time", PyVal.ofRat (result.cpu_time.getD 0)),
   ("query", .str query.query),
   ("file_name", .str query.file_name),
   ("operation", .str query.operation),
   ("complexity", .str query.complexity),
   ("thread_name", .str thread_name_val),
   ("return_code", .int return_code),
   ("error_code", PyVal.ofStr (result.error_code.getD "")),
   ("rows_processed", PyVal.ofInt (result.rows_affected.getD 0)),
   ("user_id", .str user_id)]

/-- performance_metrics.py 99–103: `safe_int` (via Python `int()`, which
truncates floats toward zero).  Numeric-string parsing is not modelled:
the engine stores no numeric strings in these fields. -/
def safe_int (v : PyVal) (dflt : Option ℤ) : Option ℤ :=
  match v with
  | .int n => some n
  | .rat q => some (pyInt q)
  | .bool b => some (if b then 1 else 0)
  | .none => dflt
  | .str _ => dflt

/-- performance_metrics.py 105–109: `safe_float`. -/
def safe_float (v : PyVal) (dflt : Option ℚ) : Option ℚ :=
  match v with
  | .rat q => some q
  | .int n => some (n : ℚ)
  | .bool b => some (if b then 1 else 0)
  | .none => dflt
  | .str _ => dflt

/-- The suffix of the haystack starting at the first occurrence of the
pattern, if any (Python `path[path.index(sub):]` guarded by `in`). -/
def firstSubFrom (pat : List Char) : List Char → Option (List Char)
  | [] => Option.none
  | c :: rest =>
    if pat.isPrefixOf (c :: rest) then some (c :: rest)
    else firstSubFrom pat rest

/-- performance_metrics.py 111–122: `normalize_path` — backslashes to
slashes, then cut down to the part starting at `queries/` when present. -/
def normalize_path (path : String) : String :=
  if path = "" then ""
  else
    let t := String.mk (path.data.map fun c => if c = '\\' then '/' else c)
    match firstSubFrom "queries/".data t.data with
    | some suf => String.mk suf
    | Option.none => t

/-- Python `s[:200].strip()` applied to the query text. -/
def pyGist (s : String) : String :=
  String.mk
    ((((s.data.take 200).dropWhile Char.isWhitespace).reverse.dropWhile
      Char.isWhitespace).reverse)

/-- Python `s.split('_')`. -/
def pySplitUnderscore (s : String) : List String :=
  (s.data.splitOn '_').map String.mk

/-- performance_metrics.py 61–148: `record_query_metrics` normalization
of one metric dict (the ISO-8601 presentation fields of lines 151–152
and the dataclass copy of 158–173 are sinks outside the claims). -/
def record_norm (query_id : String) (metrics : Dict) : Dict :=
  let norm0 := if (metrics.get? "query_id").isSome then metrics
    else metrics.set "query_id" (.str query_id)
  let parts := pySplitUnderscore (norm0.getV "query_id" (.str "")).asStr
  let norm1 := if PyVal.truthy (norm0.getV "job_id" .none) then norm0
    else norm0.set "job_id" (.str (parts.getD 0 ""))
  let norm2 := if PyVal.truthy (norm1.getV "test_case_id" .none) then norm1
    else norm1.set "test_case_id" (.str (parts.getD 1 ""))
  let norm3 :=
    if (norm2.get? "user_id").isSome && PyVal.truthy (norm2.getV "user_id" .none)
    then norm2
    else norm2.set "user_id" (.str (parts.getD 2 ""))
  let norm4 :=
    if (norm3.get? "thread_name").isSome &&
        PyVal.truthy (norm3.getV "thread_name" .none)
    then norm3
    else norm3.set "thread_name" (metrics.getV "thread_name" (.str ""))
  let dur := (safe_float
    (metrics.getV "total_duration" (metrics.getV "duration" .none))
    (some 0)).getD 0
  let norm5 := norm4.set "duration" (.rat dur)
  let norm6 := norm5.set "start_time"
    (PyVal.ofRat (safe_float (metrics.getV "start_time" .none) Option.none))
  let norm7 := norm6.set "end_time"
    (PyVal.ofRat (safe_float (metrics.getV "end_time" .none) Option.none))
  let norm8 := norm7.set "total_duration" (.rat dur)
  let qv := metrics.getV "query" (.str "")
  let norm9 := norm8.set "query" qv
  let norm10 := norm9.set "query_gist"
    (.str (pyGist (if qv.truthy then qv else .str "").asStr))
  let norm11 := norm10.set "file_name"
    (.str (normalize_path (metrics.getV "file_name" (.str "")).asStr))
  let norm12 := norm11.set "operation"
    (.str (pyLower (metrics.getV "operation" (.str "")).asStr))
  let norm13 := norm12.set "complexity"
    (.str (pyLower (metrics.getV "complexity" (.str "")).asStr))
  let norm14 := norm13.set "success"
    (.bool (PyVal.truthy (metrics.getV "success" (.bool false))))
  let ev := metrics.getV "error" (.str "")
  let norm15 := norm14.set "error" (if ev.truthy then ev else .str "")
  let norm16 := norm15.set "return_code" (metrics.getV "return_code" .none)
  let ecv := metrics.getV "error_code" (.str "")
  let norm17 := norm16.set "error_code" (if ecv.truthy then ecv else .str "")
  let ra := (safe_int
    (metrics.getV "rows_affected" (metrics.getV "rows_processed" .none))
    (some 0)).getD 0
  let norm18 := norm17.set "rows_affected" (.int ra)
  let norm19 := norm18.set "rows_processed" (.int ra)
  let norm20 := norm19.set "memory_usage"
    (PyVal.ofRat (safe_float (metrics.getV "memory_usage" .none) Option.none))
  norm20.set "cpu_time"
    (PyVal.ofRat (safe_float (metrics.getV "cpu_time" .none) Option.none))

/-- The canonical MetricRecord fields claim C5 enumerates: identifiers,
timestamps, duration, status/error, row counts, resource cost, return
code, and the work-item metadata. -/
def canonicalKeys : List String :=
  ["job_id", "test_case_id", "start_time", "end_time", "duration",
   "success", "error", "error_code", "rows_affected", "rows_processed",
   "memory_usage", "cpu_time", "file_name", "operation", "complexity",
   "return_code"]

/-- C5: for every emitted MetricRecord, regardless of backend family and
of which fields the ExecutionResult supplied, every canonical field is
present (first conjunct: all inputs), and an entirely unmeasured result
normalizes to the zero/empty/null defaults — duration 0, success False,
error and error code empty, row counts 0, resource costs 0, timestamps
null (second conjunct, listed in `canonicalKeys` order). -/
theorem metric_fields_always_present :
    (∀ (jid tid mid uid tn : String) (query : WorkItem)
        (result : ExecResult) (td : ℚ) (rc : ℤ), ∀ k ∈ canonicalKeys,
      ((metric_full jid tid mid uid tn query result td rc).get? k).isSome =
        true) ∧
    ((canonicalKeys.map fun k =>
        (record_norm "J_T_x_0_0"
          (metric_full "J" "T" "J_T_x_0_0" "u" "soaktest_simple"
            {} {} 0 0)).get? k) =
      [some (.str "J"), some (.str "T"), some .none, some .none,
       some (.rat 0), some (.bool false), some (.str ""), some (.str ""),
       some (.int 0), some (.int 0), some (.rat 0), some (.rat 0),
       some (.str ""), some (.str ""), some (.str ""), some (.int 0)]) := by
  constructor
  · intro jid tid mid uid tn query result td rc k hk
    simp only [canonicalKeys] at hk
    fin_cases hk <;> rfl
  · decide

/-- C5 witness: the job id field is among the canonical keys and is
present on a concrete record. -/
theorem metric_fields_always_present_witness :
    "job_id" ∈ canonicalKeys ∧
      ((metric_full "J" "T" "M" "u" "t" {} {} 0 0).get? "job_id").isSome =
        true :=
  ⟨by decide,
    metric_fields_always_present.1 "J" "T" "M" "u" "t" {} {} 0 0 "job_id"
      (by decide)⟩

/-- Python `string.ascii_letters + string.digits`, the token alphabet of
main.py 91 and 531 (62 characters). -/
def alnumChars : List Char :=
  "abcdefghijklmnopqrstuvwxyzABCDEFGHIJKLMNOPQRSTUVWXYZ0123456789".data

/-- main.py 91 / 531:
`''.join(secrets.choice(string.ascii_letters + string.digits) for _ in
range(24))`.  The cryptographic random source is modelled by the 24
injected alphabet choices. -/
def gen_token (pick : Fin 24 → Fin 62) : String :=
  String.mk ((List.finRange 24).map fun i => alnumChars.get ((pick i).cast rfl))

/-- main.py 535: the composite metric id
`f"{job_id}_{test_case_id}_{thread_name_val}_{local_count}_{i_index or i}"`
(`i_index` is 0 at every call site, so the enumerate index `i` is used). -/
def metric_id (job_id test_case_id thread_name_val : String)
    (local_count i : ℕ) : String :=
  job_id ++ "_" ++ test_case_id ++ "_" ++ thread_name_val ++ "_" ++
    toString local_count ++ "_" ++ toString i

/-- main.py 530–535 and 588–610: the metric emitted for the `i`-th
result of one `process_query` call — a fresh test-case token per result,
the closure-captured run job id on every record.  (`entropy i` is the
randomness consumed by the `i`-th token; the unreachable
`AttributeError` path of the return-code chain is totalized with 0,
which no identifier field depends on.) -/
def emit_metric (jid uid tn : String) (entropy : ℕ → Fin 24 → Fin 62)
    (query : WorkItem) (lc : ℕ) (i : ℕ) (result : ExecResult) : Dict :=
  let test_case_id := gen_token (entropy i)
  let mid := metric_id jid test_case_id tn lc i
  metric_full jid test_case_id mid uid tn query result
    (compose_total_duration result) ((return_code_val result).getD 0)

/-- main.py 530: `for i, result in enumerate(results)`, emitting one
metric per result, with `i` the running enumerate index. -/
def process_results (jid uid tn : String) (entropy : ℕ → Fin 24 → Fin 62)
    (query : WorkItem) (lc : ℕ) : ℕ → List ExecResult → List Dict
  | _, [] => []
  | i, r :: rest =>
    emit_metric jid uid tn entropy query lc i r ::
      process_results jid uid tn entropy query lc (i + 1) rest

/-- The job id field of an emitted metric is the run's job id. -/
lemma emit_metric_job_id (jid uid tn : String) (entropy : ℕ → Fin 24 → Fin 62)
    (query : WorkItem) (lc i : ℕ) (result : ExecResult) :
    (emit_metric jid uid tn entropy query lc i result).get? "job_id" =
      some (.str jid) := rfl

/-- The test-case id field of the `i`-th emitted metric is the token
built from the `i`-th randomness draw. -/
lemma emit_metric_test_case_id (jid uid tn : String)
    (entropy : ℕ → Fin 24 → Fin 62) (query : WorkItem) (lc i : ℕ)
    (result : ExecResult) :
    (emit_metric jid uid tn entropy query lc i result).get? "test_case_id" =
      some (.str (gen_token (entropy i))) := rfl

/-- C8: every MetricRecord emitted within one profile run carries the
single job id generated at run start (first conjunct: all records map to
it), and each record's test-case id is a freshly generated token — the
`i`-th record consumes the `i`-th randomness draw (second conjunct) —
where every token has exactly 24 characters (third conjunct), all drawn
from the alphanumeric alphabet (fourth conjunct). -/
theorem run_identifiers_confirmed :
    (∀ (jid uid tn : String) (entropy : ℕ → Fin 24 → Fin 62)
        (query : WorkItem) (lc i : ℕ) (results : List ExecResult),
      (process_results jid uid tn entropy query lc i results).map
          (fun m => m.get? "job_id") =
        List.replicate results.length (some (.str jid))) ∧
    (∀ (jid uid tn : String) (entropy : ℕ → Fin 24 → Fin 62)
        (query : WorkItem) (lc i : ℕ) (results : List ExecResult),
      (process_results jid uid tn entropy query lc i results).map
          (fun m => m.get? "test_case_id") =
        (List.range' i results.length).map
          (fun j => some (.str (gen_token (entropy j))))) ∧
    (∀ pick : Fin 24 → Fin 62, (gen_token pick).length = 24) ∧
    (∀ (pick : Fin 24 → Fin 62) (c : Char), c ∈ (gen_token pick).data →
      c ∈ alnumChars) := by
  refine ⟨?_, ?_, ?_, ?_⟩
  · intro jid uid tn entropy query lc i results
    induction results generalizing i with
    | nil => rfl
    | cons r rest ih =>
      simp [process_results, emit_metric_job_id, ih, List.replicate_succ]
  · intro jid uid tn entropy query lc i results
    induction results generalizing i with
    | nil => rfl
    | cons r rest ih =>
      simp [process_results, emit_metric_test_case_id, ih, List.range']
  · intro pick
    simp [gen_token, String.length]
  · intro pick c hc
    simp only [gen_token, List.mem_map] at hc
    obtain ⟨i, _, rfl⟩ := hc
    exact List.get_mem _ _ _

/-- C8 witness: a concrete token from a constant randomness draw is
alphanumeric. -/
theorem run_identifiers_confirmed_witness :
    'a' ∈ (gen_token fun _ => (⟨0, by decide⟩ : Fin 62)).data ∧
      'a' ∈ alnumChars :=
  ⟨by decide,
    run_identifiers_confirmed.2.2.2 (fun _ => ⟨0, by decide⟩) 'a' (by decide)⟩

/-- main.py 407–412 (and 397–402): filling one bounded queue —
`put_nowait` item by item, stopping at the first `queue.Full` — keeps
the first `capacity` provider items. -/
def fill_once (capacity : ℕ) (provider : List WorkItem) : List WorkItem :=
  provider.take capacity

/-- One scheduler step of the exactly-once worker pool on one category:
some worker's `q.get_nowait()` (main.py 622–628) removes the queue head
and its `process_query` emits the matching record (a single-result
adapter yields one record per item).  The transliterated per_query_once
loop contains no replenish call, so popping is the only step. -/
inductive QueueStep :
    List WorkItem × List WorkItem → List WorkItem × List WorkItem → Prop
  | pop (w : WorkItem) (rest out : List WorkItem) :
      QueueStep (w :: rest, out) (rest, out ++ [w])

/-- Each step conserves `emitted ++ pending`. -/
lemma queueStep_invariant {s t : List WorkItem × List WorkItem}
    (h : QueueStep s t) : t.2 ++ t.1 = s.2 ++ s.1 := by
  cases h with
  | pop w rest out => simp

/-- The conservation law extends to any run of the worker pool. -/
lemma queueRun_invariant {s t : List WorkItem × List WorkItem}
    (h : Relation.ReflTransGen QueueStep s t) : t.2 ++ t.1 = s.2 ++ s.1 := by
  induction h with
  | refl => rfl
  | tail _ h2 ih => rw [queueStep_invariant h2, ih]

/-- C3 counterexample: with queue capacity 1 and two distinct provider
items, the initial fill stops at `queue.Full` after one item, so the
completed exactly-once run emits 1 MetricRecord, not K = 2 — the queue
is not filled with the provider's full item set. -/
theorem exactly_once_counterexample :
    ({ query := "q1" } : WorkItem) ≠ { query := "q2" } ∧
      fill_once 1 [{ query := "q1" }, { query := "q2" }] =
        [{ query := "q1" }] ∧
      Relation.ReflTransGen QueueStep
        (fill_once 1 [{ query := "q1" }, { query := "q2" }], [])
        ([], [{ query := "q1" }]) ∧
      ([({ query := "q1" } : WorkItem)]).length ≠ 2 := by
  refine ⟨by decide, rfl, ?_, by decide⟩
  exact Relation.ReflTransGen.single (QueueStep.pop _ [] [])

/-- C3 (amended): in exactly-once mode each category queue is filled
once with the provider's item set truncated to the queue capacity and is
never replenished; when the K provider items fit the capacity the fill
is the full item set and every completed run of the worker pool emits
exactly those K records, one per item in order, with no duplication; a
worker observing an empty queue by a non-blocking pop can take no
further step. -/
theorem exactly_once_amended :
    (∀ (capacity : ℕ) (provider : List WorkItem),
      provider.length ≤ capacity → fill_once capacity provider = provider) ∧
    (∀ (q out : List WorkItem),
      Relation.ReflTransGen QueueStep (q, []) ([], out) → out = q) ∧
    (∀ (out : List WorkItem) (s : List WorkItem × List WorkItem),
      ¬ QueueStep ([], out) s) := by
  refine ⟨?_, ?_, ?_⟩
  · intro capacity provider h
    exact List.take_of_length_le h
  · intro q out h
    have h2 := queueRun_invariant h
    simpa using h2
  · intro out s h
    cases h

/-- C3 witness: two items within capacity are kept in full. -/
theorem exactly_once_amended_witness :
    ([({ query := "q1" } : WorkItem), { query := "q2" }]).length ≤ 2 ∧
      fill_once 2 [{ query := "q1" }, { query := "q2" }] =
        [{ query := "q1" }, { query := "q2" }] :=
  ⟨by decide,
    exactly_once_amended.1 2 [{ query := "q1" }, { query := "q2" }]
      (by decide)⟩

/-- main.py 632–656: the fixed-run-count worker loop (duration 0,
single-run, per_thread).  The trace lists the observed pop outcomes in
order: `none` is a `queue.Empty` timeout (global replenish, nothing
counted), `some w` a popped item, which `process_query` turns into one
record (single-result relational adapter) before `run_counter` is
incremented.  Returns the number of records emitted over the trace. -/
def fixed_run_loop (qpc : ℕ) : ℕ → List (Option WorkItem) → ℕ
  | _, [] => 0
  | run_counter, o :: rest =>
    if run_counter < qpc then
      match o with
      | Option.none => fixed_run_loop qpc run_counter rest
      | some _ => 1 + fixed_run_loop qpc (run_counter + 1) rest
    else 0

/-- A trace holding enough successful pops drives the counter from
`counter` up to `qpc`, one record each. -/
lemma fixed_run_loop_count (qpc : ℕ) (trace : List (Option WorkItem))
    (counter : ℕ) (h : qpc - counter ≤ (trace.filterMap id).length) :
    fixed_run_loop qpc counter trace = qpc - counter := by
  induction trace generalizing counter with
  | nil =>
    simp only [List.filterMap_nil, List.length_nil, Nat.le_zero] at h
    simp [fixed_run_loop, h]
  | cons o rest ih =>
    by_cases hc : counter < qpc
    · cases o with
      | none =>
        have hlen : ((Option.none :: rest).filterMap
            (id : Option WorkItem → Option WorkItem)).length =
            (rest.filterMap id).length := by simp
        rw [hlen] at h
        have hstep : fixed_run_loop qpc counter (Option.none :: rest) =
            fixed_run_loop qpc counter rest := by
          simp [fixed_run_loop, hc]
        rw [hstep]
        exact ih counter h
      | some w =>
        have hlen : ((some w :: rest).filterMap
            (id : Option WorkItem → Option WorkItem)).length =
            (rest.filterMap id).length + 1 := by simp
        rw [hlen] at h
        have h2 : qpc - (counter + 1) ≤ (rest.filterMap id).length := by omega
        have hstep : fixed_run_loop qpc counter (some w :: rest) =
            1 + fixed_run_loop qpc (counter + 1) rest := by
          simp [fixed_run_loop, hc]
        rw [hstep, ih (counter + 1) h2]
        omega
    · have hstep : fixed_run_loop qpc counter (o :: rest) = 0 := by
        simp [fixed_run_loop, hc]
      rw [hstep]
      omega

/-- C4: in fixed-run-count mode a worker continues while completed
iterations are below queries-per-connection, so with enough successful
pops it emits exactly `qpc` records — in particular exactly 5 when
`queries_per_connection = 5` — and a pop timeout consumes no iteration:
dropping a leading timeout from the trace changes nothing. -/
theorem fixed_run_count_confirmed :
    (∀ (qpc : ℕ) (trace : List (Option WorkItem)),
      qpc ≤ (trace.filterMap id).length → fixed_run_loop qpc 0 trace = qpc) ∧
    (∀ (trace : List (Option WorkItem)),
      5 ≤ (trace.filterMap id).length → fixed_run_loop 5 0 trace = 5) ∧
    (∀ (qpc counter : ℕ) (trace : List (Option WorkItem)),
      fixed_run_loop qpc counter (Option.none :: trace) =
        fixed_run_loop qpc counter trace) := by
  refine ⟨?_, ?_, ?_⟩
  · intro qpc trace h
    have := fixed_run_loop_count qpc trace 0 (by simpa using h)
    simpa using this
  · intro trace h
    have := fixed_run_loop_count 5 trace 0 (by simpa using h)
    simpa using this
  · intro qpc counter trace
    cases trace <;> by_cases h : counter < qpc <;>
      simp [fixed_run_loop, h]

/-- C4 witness: one worker, `queries_per_connection = 5`, a trace of
seven pops two of which time out, emits exactly 5 records. -/
theorem fixed_run_count_confirmed_witness :
    5 ≤ (([some ({} : WorkItem), Option.none, some {}, some {},
        Option.none, some {}, some {}] :
          List (Option WorkItem)).filterMap id).length ∧
      fixed_run_loop 5 0
        [some ({} : WorkItem), Option.none, some {}, some {},
          Option.none, some {}, some {}] = 5 :=
  ⟨by decide,
    fixed_run_count_confirmed.2.1
      [some ({} : WorkItem), Option.none, some {}, some {},
        Option.none, some {}, some {}] (by decide)⟩

/-- main.py 342–347: the relational read fallback item. -/
def sql_read_default (cx : String) : WorkItem :=
  { query := "SELECT current_date", file_name := "default.sql",
    operation := "select", complexity := cx }

/-- main.py 386–391: the relational write fallback item. -/
def sql_write_default (op cx : String) : WorkItem :=
  { query := "SELECT version()", file_name := "default.sql",
    operation := op, complexity := cx }

/-- main.py 332–340: the mongodb read (find) fallback item. -/
def mongo_find_default (cx : String) : WorkItem :=
  { file_name := "default.json", operation := "select", complexity := cx,
    action := some "find", collection := some "test",
    query := "\x7b\"action\":\"find\",\"collection\":\"test\",\"filter\":\x7b\x7d\x7d" }

/-- main.py 353–361: the mongodb insert fallback item. -/
def mongo_insert_default (cx : String) : WorkItem :=
  { file_name := "default.json", operation := "insert", complexity := cx,
    action := some "insert_one", collection := some "test",
    query := "\x7b\"action\":\"insert_one\",\"collection\":\"test\",\"document\":\x7b\"_sample\":true\x7d\x7d" }

/-- main.py 362–372: the mongodb update fallback item. -/
def mongo_update_default (cx : String) : WorkItem :=
  { file_name := "default.json", operation := "update", complexity := cx,
    action := some "update_many", collection := some "test",
    query := "\x7b\"action\":\"update_many\",\"collection\":\"test\",\"filter\":\x7b\x7d,\"update\":\x7b\"$set\":\x7b\"_updated\":true\x7d\x7d\x7d" }

/-- main.py 373–382: the mongodb delete fallback item. -/
def mongo_delete_default (cx : String) : WorkItem :=
  { file_name := "default.json", operation := "delete", complexity := cx,
    action := some "delete_many", collection := some "test",
    query := "\x7b\"action\":\"delete_many\",\"collection\":\"test\",\"filter\":\x7b\x7d\x7d" }

/-- main.py 217–392: `get_queries_for_queue` with the file-discovery
phase abstracted as the Query Provider's `provider` list (out of scope as
an external collaborator) and the `if not queries:` fallback of lines
327–392 transliterated.  The queue key arrives pre-parsed: the
`key.split('_', …)` calls invert the key construction of lines 206–212. -/
def get_queries_for_queue (db_type : String) (key : Assignment)
    (provider : List WorkItem) : List WorkItem :=
  if provider ≠ [] then provider
  else
    match key with
    | .read cx =>
      if db_type = "mongodb" then [mongo_find_default cx]
      else [sql_read_default cx]
    | .write op cx =>
      if db_type = "mongodb" then
        if op = "insert" then [mongo_insert_default cx]
        else if op = "update" then [mongo_update_default cx]
        else if op = "delete" then [mongo_delete_default cx]
        else []
      else [sql_write_default op cx]

/-- C9 counterexample: a mongodb write category with an operation
outside insert/update/delete (reachable from any `write_operations`
ratio key, e.g. "merge") and zero provider items receives an empty
fallback — `queries = []` at main.py 383–384 — not exactly one default
WorkItem. -/
theorem queue_fill_fallback_counterexample :
    get_queries_for_queue "mongodb" (.write "merge" "simple") [] = [] ∧
      ([] : List WorkItem).length ≠ 1 := by
  exact ⟨by decide, by decide⟩

/-- C9 (amended): a category with zero provider items receives exactly
one synthesized default WorkItem matching its backend family and
operation for every relational category and for mongodb read /
insert / update / delete categories; a mongodb write category with any
other operation receives zero items. -/
theorem queue_fill_fallback_amended :
    (∀ (db cx : String), db ≠ "mongodb" →
      get_queries_for_queue db (.read cx) [] = [sql_read_default cx]) ∧
    (∀ (db op cx : String), db ≠ "mongodb" →
      get_queries_for_queue db (.write op cx) [] =
        [sql_write_default op cx]) ∧
    (∀ cx : String,
      get_queries_for_queue "mongodb" (.read cx) [] =
        [mongo_find_default cx]) ∧
    (∀ cx : String,
      get_queries_for_queue "mongodb" (.write "insert" cx) [] =
          [mongo_insert_default cx] ∧
        get_queries_for_queue "mongodb" (.write "update" cx) [] =
          [mongo_update_default cx] ∧
        get_queries_for_queue "mongodb" (.write "delete" cx) [] =
          [mongo_delete_default cx]) ∧
    (∀ (op cx : String), op ∉ (["insert", "update", "delete"] : List String) →
      get_queries_for_queue "mongodb" (.write op cx) [] = []) := by
  refine ⟨?_, ?_, ?_, ?_, ?_⟩
  · intro db cx h
    simp [get_queries_for_queue, h]
  · intro db op cx h
    simp [get_queries_for_queue, h]
  · intro cx
    simp [get_queries_for_queue]
  · intro cx
    refine ⟨?_, ?_, ?_⟩ <;> simp [get_queries_for_queue]
  · intro op cx h
    simp only [List.mem_cons, List.not_mem_nil, or_false, not_or] at h
    obtain ⟨h1, h2, h3⟩ := h
    simp [get_queries_for_queue, h1, h2, h3]

/-- C9 witness: a relational read category with no provider items gets
exactly the SQL read default. -/
theorem queue_fill_fallback_amended_witness :
    ("postgresql" : String) ≠ "mongodb" ∧
      get_queries_for_queue "postgresql" (.read "simple") [] =
        [sql_read_default "simple"] :=
  ⟨by decide, queue_fill_fallback_amended.1 "postgresql" "simple" (by decide)⟩
